import Mathlib

/-!
Shallow embedding of the payment-webhook reconciliation logic of the
dongvanfb reseller hub (Supabase edge functions written in TypeScript):

* `supabase/functions/nowpayments-webhook/index.ts`  (namespace `NP`)
* `supabase/functions/cryptomus-webhook/index.ts`    (namespace `CM`)
* `supabase/functions/expire-deposits/index.ts`      (`sweepExpired`)

Records carry only the fields the embedded code reads or writes
(`updated_at` timestamps are elided).  Amounts are rationals; JS number
coercion `parseFloat` applied to a number is the identity and is elided.
Database calls are modelled as pure list operations plus an explicit
fault record saying which call reports an error, mirroring the
`{ data, error }` results of the supabase client.  Cryptographic
primitives (HMAC-SHA512, MD5, base64) are platform functions, not
repository code, so they enter the model as abstract function
parameters; the surrounding control flow is translated literally.
-/

/-- JS truthiness of a possibly-absent string (`null`/`undefined` and
the empty string are falsy). -/
def strTruthy : Option String → Bool
  | none => false
  | some s => !(s == "")

/-- JS truthiness of a possibly-absent number (`null`/`undefined` and
`0` are falsy). -/
def qTruthy : Option ℚ → Bool
  | none => false
  | some q => !(q == 0)

/-- A row of the `deposits` table, restricted to the fields the
webhook handlers and the expiry sweep read or write. -/
structure Deposit where
  id : Nat
  user_id : Nat
  amount : ℚ
  payment_id : String
  payment_status : String
  expires_at : Option ℚ
  deriving DecidableEq, Repr

/-- A row of the `profiles` table, restricted to the fields the
handlers touch.  `balance` is `none` when the column is NULL. -/
structure Profile where
  user_id : Nat
  balance : Option ℚ
  deriving DecidableEq, Repr

/-- The database state the reconciliation logic operates on. -/
structure DB where
  deposits : List Deposit
  profiles : List Profile
  deriving DecidableEq, Repr

/-- Which of the four database round trips of a webhook invocation
report an error (`true` = the supabase call returns a non-null
`error`). -/
structure Faults where
  fetchDeposit : Bool
  updateDeposit : Bool
  fetchProfile : Bool
  updateBalance : Bool
  deriving DecidableEq, Repr

/-- No database call fails. -/
def noFaults : Faults := ⟨false, false, false, false⟩

/-- Model of `supabase.from('deposits').update({ payment_status }).eq('id', i)`. -/
def setDepositStatus (i : Nat) (st : String) (db : DB) : DB :=
  { db with deposits := db.deposits.map fun d =>
      if d.id == i then { d with payment_status := st } else d }

/-- Model of `supabase.from('profiles').update({ balance }).eq('user_id', u)`. -/
def setBalance (u : Nat) (b : ℚ) (db : DB) : DB :=
  { db with profiles := db.profiles.map fun p =>
      if p.user_id == u then { p with balance := some b } else p }

/-- Model of `profile.balance || 0`: a NULL balance is read as zero (a stored
zero is likewise zero, so `Option.getD` is the exact JS `||` here). -/
def balanceOrZero (b : Option ℚ) : ℚ := b.getD 0

/-- Balance of user `u` in `db` (first matching profile row). -/
def profileBalance (u : Nat) (db : DB) : Option (Option ℚ) :=
  (db.profiles.find? fun p => p.user_id == u).map Profile.balance

/-- Status of deposit `i` in `db` (first matching row). -/
def depositStatus (i : Nat) (db : DB) : Option String :=
  (db.deposits.find? fun d => d.id == i).map Deposit.payment_status

namespace NP

/-- The fields of a NOWPayments webhook payload the handler
destructures: `const { payment_id, payment_status, pay_amount,
actually_paid } = payload`.  `none` models an absent/null field. -/
structure Payload where
  payment_id : String
  payment_status : String
  pay_amount : Option ℚ
  actually_paid : Option ℚ
  deriving DecidableEq, Repr

/-- Model of `actually_paid || pay_amount || deposit.amount`, the value fed to
`parseFloat` and added to the balance (nowpayments-webhook line 120). -/
def amountToAdd (p : Payload) (depositAmount : ℚ) : ℚ :=
  if qTruthy p.actually_paid then p.actually_paid.getD 0
  else if qTruthy p.pay_amount then p.pay_amount.getD 0
  else depositAmount

/-- Body of the NOWPayments handler after the signature gate
(nowpayments-webhook lines 69-164): look the deposit up by
`payment_id` with `maybeSingle()` (an error when the filter matches
more than one row), unconditionally write the raw gateway status onto
the deposit, return early when the *fetched* status was `expired`,
and on raw status `finished`/`confirmed` read the profile with
`single()` (an error unless exactly one row matches) and persist
`(balance || 0) + amountToAdd`.  Returns the HTTP status and the
database after the invocation. -/
def afterAuth (p : Payload) (f : Faults) (db : DB) : Nat × DB :=
  if f.fetchDeposit then (500, db)
  else
    match db.deposits.filter (fun d => d.payment_id == p.payment_id) with
    | [] => (200, db)
    | _ :: _ :: _ => (500, db)
    | [deposit] =>
      let db1 := if f.updateDeposit then db
        else setDepositStatus deposit.id p.payment_status db
      if deposit.payment_status == "expired" then (200, db1)
      else if p.payment_status == "finished" || p.payment_status == "confirmed" then
        if f.fetchProfile then (500, db1)
        else
          match db1.profiles.filter (fun pr => pr.user_id == deposit.user_id) with
          | [profile] =>
            if f.updateBalance then (500, db1)
            else
              (200, setBalance deposit.user_id
                (balanceOrZero profile.balance + amountToAdd p deposit.amount) db1)
          | _ => (500, db1)
      else (200, db1)

/-- The whole NOWPayments webhook invocation.  `expectedSig sec p` is
the hex HMAC-SHA512 the verification routine computes for payload `p`
under secret `sec` (abstracted; the comparison and the gating control
flow of lines 54-67 are literal): verification runs only when the
`NOWPAYMENTS_IPN_SECRET` env var is truthy *and* the
`x-nowpayments-sig` header is present and truthy; a missing header
falls through to normal processing. -/
def handler (expectedSig : String → Payload → String)
    (ipnSecret sigHeader : Option String)
    (p : Payload) (f : Faults) (db : DB) : Nat × DB :=
  if strTruthy ipnSecret then
    if strTruthy sigHeader then
      if sigHeader.getD "" == expectedSig (ipnSecret.getD "") p then
        afterAuth p f db
      else (401, db)
    else afterAuth p f db
  else afterAuth p f db

end NP

namespace CM

/-- The fields of a Cryptomus webhook payload the handler
destructures: `const { uuid, order_id, status, amount, currency } =
payload` plus `payload.sign` (the amount fields are logged only and
never used, so they are elided). -/
structure Payload where
  uuid : Option String
  order_id : Option String
  status : String
  sign : Option String
  deriving DecidableEq, Repr

/-- Model of `delete dataToSign.sign` before signing. -/
def Payload.withoutSign (p : Payload) : Payload := { p with sign := none }

/-- The `statusMapping` table of cryptomus-webhook lines 73-86. -/
def statusMapping : List (String × String) :=
  [("paid", "confirmed"), ("paid_over", "confirmed"),
   ("confirm_check", "waiting"), ("wrong_amount", "waiting"),
   ("process", "waiting"), ("check", "waiting"),
   ("fail", "expired"), ("cancel", "expired"),
   ("system_fail", "expired"), ("refund_process", "expired"),
   ("refund_fail", "expired"), ("refund_paid", "expired")]

/-- String-level restriction of `statusMapping[status] || status`
(line 88) to own-entry lookup, used where the handler stores the
mapped status: by `mappedStatus_agrees` it coincides with the full
prototype-chain semantics `mappedStatusJs` on every status that does
not name an inherited `Object.prototype` member. -/
def mappedStatus (status : String) : String :=
  match List.lookup status statusMapping with
  | some v => if v == "" then status else v
  | none => status

/-- Member names an object literal such as `statusMapping` inherits
from `Object.prototype` (V8, as run by Deno): bracket access finds
these on the prototype chain when no own entry matches.  All are
truthy — eleven functions plus the `__proto__` accessor yielding
`Object.prototype`. -/
def objectProtoMembers : List String :=
  ["constructor", "hasOwnProperty", "isPrototypeOf", "propertyIsEnumerable",
   "toLocaleString", "toString", "valueOf", "__proto__",
   "__defineGetter__", "__defineSetter__", "__lookupGetter__", "__lookupSetter__"]

/-- A value the JS expression `statusMapping[status]` can evaluate to:
one of the own string entries, or the inherited (non-string, truthy)
`Object.prototype` member of the given name. -/
inductive PropValue where
  | str : String → PropValue
  | protoMember : String → PropValue
  deriving DecidableEq, Repr

/-- JS bracket access `statusMapping[status]` including the prototype
chain: an own entry first, an inherited `Object.prototype` member
second, `undefined` (`none`) otherwise. -/
def bracketStatusMapping (status : String) : Option PropValue :=
  match List.lookup status statusMapping with
  | some v => some (.str v)
  | none =>
    if status ∈ objectProtoMembers then some (.protoMember status) else none

/-- JS truthiness of the access result: `undefined` and the empty
string are falsy; functions and objects are truthy. -/
def propTruthy : Option PropValue → Bool
  | none => false
  | some (.str s) => !(s == "")
  | some (.protoMember _) => true

/-- Faithful model of `statusMapping[status] || status` (line 88)
with JS property-access semantics: the bracket access (own entries,
then the prototype chain), falling through to the input string only
when that access is falsy. -/
def mappedStatusJs (status : String) : PropValue :=
  match bracketStatusMapping status with
  | some v => if propTruthy (some v) then v else .str status
  | none => .str status

/-- Body of the Cryptomus handler after the signature gate
(cryptomus-webhook lines 67-182): `paymentId = uuid || order_id`,
deposit lookup by that id with `maybeSingle()`, unconditional write of
the *mapped* status, early return when the fetched status was
`expired`, and on raw status `paid`/`paid_over` a credit of the
deposit's stored amount. -/
def afterAuth (p : Payload) (f : Faults) (db : DB) : Nat × DB :=
  let paymentId := if strTruthy p.uuid then p.uuid else p.order_id
  let mapped := mappedStatus p.status
  if f.fetchDeposit then (500, db)
  else
    match db.deposits.filter (fun d => paymentId == some d.payment_id) with
    | [] => (200, db)
    | _ :: _ :: _ => (500, db)
    | [deposit] =>
      let db1 := if f.updateDeposit then db
        else setDepositStatus deposit.id mapped db
      if deposit.payment_status == "expired" then (200, db1)
      else if p.status == "paid" || p.status == "paid_over" then
        if f.fetchProfile then (500, db1)
        else
          match db1.profiles.filter (fun pr => pr.user_id == deposit.user_id) with
          | [profile] =>
            if f.updateBalance then (500, db1)
            else
              (200, setBalance deposit.user_id
                (balanceOrZero profile.balance + deposit.amount) db1)
          | _ => (500, db1)
      else (200, db1)

/-- The whole Cryptomus webhook invocation.  `expectedSig key p` is
the hex MD5 digest the verification routine computes for payload `p`
(with its `sign` member deleted) under `CRYPTOMUS_API_KEY` `key`
(abstracted; gating control flow of lines 51-65 is literal):
`signature = headers.get('sign') || payload.sign`; verification runs
only when the api key and that signature are truthy, with a
case-insensitive hex comparison; an absent signature falls through to
normal processing. -/
def handler (expectedSig : String → Payload → String)
    (apiKey sigHeader : Option String)
    (p : Payload) (f : Faults) (db : DB) : Nat × DB :=
  let signature := if strTruthy sigHeader then sigHeader else p.sign
  if strTruthy apiKey then
    if strTruthy signature then
      if (signature.getD "").toLower == (expectedSig (apiKey.getD "") p.withoutSign).toLower then
        afterAuth p f db
      else (401, db)
    else afterAuth p f db
  else afterAuth p f db

end CM

/-- A parsed JSON value, as produced by `JSON.parse` on the raw
request body (`undefined` cannot occur in parsed JSON; an absent
object member reads as `undefined`, modelled as `Json.null`, which has
the same truthiness and the same `Object.keys` behaviour). -/
inductive Json where
  | null : Json
  | bool : Bool → Json
  | num : ℚ → Json
  | str : String → Json
  | arr : List Json → Json
  | obj : List (String × Json) → Json

/-- The JS exceptions the signature-verification routines can raise on
malformed input. -/
inductive JsErr where
  | typeError : JsErr
  | invalidCharacter : JsErr
  deriving DecidableEq, Repr

/-- Model of `Object.keys(x)`: throws a `TypeError` on `null`, returns the own
member names of an object, the index strings of an array or a string,
and `[]` for the remaining primitives. -/
def jsObjectKeys : Json → Except JsErr (List String)
  | .null => .error .typeError
  | .obj fs => .ok (fs.map Prod.fst)
  | .arr xs => .ok ((List.range xs.length).map toString)
  | .str s => .ok ((List.range s.length).map toString)
  | .bool _ => .ok []
  | .num _ => .ok []

/-- JS member access `x[key]` for the keys produced by
`jsObjectKeys` (first own member of an object; indexed element of an
array; indexed one-character string of a string). -/
def jsGet (j : Json) (k : String) : Json :=
  match j with
  | .obj fs => ((fs.find? fun kv => kv.1 == k).map Prod.snd).getD .null
  | .arr xs =>
    match k.toNat? with
    | some i => xs.getD i .null
    | none => .null
  | .str s =>
    match k.toNat? with
    | some i =>
      match s.toList.get? i with
      | some c => .str (String.mk [c])
      | none => .null
    | none => .null
  | _ => .null

mutual

/-- Model of `JSON.stringify` restricted to parsed-JSON values (string escaping
elided; the serialisation only feeds the abstract digest functions). -/
def jsonStringify : Json → String
  | .null => "null"
  | .bool true => "true"
  | .bool false => "false"
  | .num q => toString q
  | .str s => "\"" ++ s ++ "\""
  | .arr xs => "[" ++ jsonStringifyList xs ++ "]"
  | .obj fs => "\x7b" ++ jsonStringifyFields fs ++ "\x7d"

/-- Comma-separated serialisation of array elements. -/
def jsonStringifyList : List Json → String
  | [] => ""
  | [x] => jsonStringify x
  | x :: y :: rest => jsonStringify x ++ "," ++ jsonStringifyList (y :: rest)

/-- Comma-separated serialisation of object members. -/
def jsonStringifyFields : List (String × Json) → String
  | [] => ""
  | [kv] => "\"" ++ kv.1 ++ "\":" ++ jsonStringify kv.2
  | kv :: kv2 :: rest =>
    "\"" ++ kv.1 ++ "\":" ++ jsonStringify kv.2 ++ "," ++
      jsonStringifyFields (kv2 :: rest)

end

/-- Model of `btoa(s)`: throws an `InvalidCharacterError` when some character
is outside latin-1, otherwise base64-encodes (the encoding itself,
a platform primitive, is the abstract parameter `enc`). -/
def btoaE (enc : String → String) (s : String) : Except JsErr String :=
  if s.toList.all (fun c => c.val ≤ 255) then .ok (enc s)
  else .error .invalidCharacter

/-- Model of `verifySignature` of nowpayments-webhook lines 9-35, over the raw
parsed payload.  `hmacSha512Hex secret message` abstracts the
`crypto.subtle` HMAC-SHA512 hex digest.  The function body has no
`try`/`catch`, so the `Object.keys` `TypeError` on a `null` payload
escapes to the caller: the result is `Except`. -/
def NP.verifySignature (hmacSha512Hex : String → String → String)
    (payload : Json) (signature secret : String) : Except JsErr Bool := do
  let keys ← jsObjectKeys payload
  let sortedKeys := keys.mergeSort (fun a b => decide (a ≤ b))
  let sortedPayload := Json.obj (sortedKeys.map fun k => (k, jsGet payload k))
  let expectedSignature := hmacSha512Hex secret (jsonStringify sortedPayload)
  pure (signature == expectedSignature)

/-- The `try` body of `verifySignature` of cryptomus-webhook lines
11-27: spread the payload (`{...data}` of a primitive yields the empty
object, of a string or array its indexed members), delete its `sign`
member, serialise, base64-encode (can throw), append the api key, MD5
(abstracted by `md5Hex`), and compare hex digests case-insensitively. -/
def CM.verifySignatureCore (md5Hex : String → String) (enc : String → String)
    (data : Json) (signature apiKey : String) : Except JsErr Bool := do
  let spread : List (String × Json) :=
    match data with
    | .obj fs => fs
    | .arr xs => (List.range xs.length).map fun i => (toString i, xs.getD i .null)
    | .str s => (List.range s.length).map fun i =>
        (toString i, jsGet (.str s) (toString i))
    | _ => []
  let dataToSign := Json.obj (spread.filter fun kv => !(kv.1 == "sign"))
  let jsonData := jsonStringify dataToSign
  let base64Data ← btoaE enc jsonData
  let signString := base64Data ++ apiKey
  let expectedSignature := md5Hex signString
  pure (signature.toLower == expectedSignature.toLower)

/-- Model of `verifySignature` of cryptomus-webhook lines 10-32: the whole body
is wrapped in `try`/`catch`, and the catch arm returns `false`, so the
function always returns a boolean. -/
def CM.verifySignature (md5Hex : String → String) (enc : String → String)
    (data : Json) (signature apiKey : String) : Bool :=
  match CM.verifySignatureCore md5Hex enc data signature apiKey with
  | .ok b => b
  | .error _ => false

/-- Which of the two database round trips of the expiry sweep report
an error. -/
structure SweepFaults where
  fetch : Bool
  update : Bool
  deriving DecidableEq, Repr

/-- No sweep database call fails. -/
def noSweepFaults : SweepFaults := ⟨false, false⟩

/-- The selection predicate of expire-deposits lines 23-27:
`payment_status in ('waiting','pending') and expires_at < now`
(a NULL `expires_at` never satisfies the SQL comparison). -/
def expireMatch (now : ℚ) (d : Deposit) : Bool :=
  (d.payment_status == "waiting" || d.payment_status == "pending") &&
    (match d.expires_at with
     | some t => decide (t < now)
     | none => false)

/-- The expiry sweep (expire-deposits lines 22-74): select the
matching deposits, return `(200, 0)` when none match, otherwise bulk
update every deposit whose `id` is among the collected ids to
`expired` and report the count.  The result is
`(http status, expired count, database)`. -/
def sweepExpired (now : ℚ) (f : SweepFaults) (db : DB) : Nat × Nat × DB :=
  if f.fetch then (500, 0, db)
  else
    let expiredDeposits := db.deposits.filter (expireMatch now)
    if expiredDeposits.isEmpty then (200, 0, db)
    else
      let depositIds := expiredDeposits.map Deposit.id
      if f.update then (500, 0, db)
      else
        (200, expiredDeposits.length,
          { db with deposits := db.deposits.map fun d =>
              if d.id ∈ depositIds then { d with payment_status := "expired" } else d })

/-! ## Concrete scenarios and claim theorems -/

/-- Scenario for claim C1 (the concrete example of spec section 8.7):
one deposit of 25 in status `waiting` with `payment_id` "abc123",
owned by user 7 whose balance is 10. -/
def c1Db : DB :=
  { deposits := [{ id := 1, user_id := 7, amount := 25, payment_id := "abc123",
                   payment_status := "waiting", expires_at := none }],
    profiles := [{ user_id := 7, balance := some 10 }] }

/-- A NOWPayments `finished` webhook for "abc123" carrying no payload
amount fields. -/
def c1Payload : NP.Payload :=
  { payment_id := "abc123", payment_status := "finished",
    pay_amount := none, actually_paid := none }

/-- State after one delivery of the `finished` webhook. -/
def c1Once : Nat × DB :=
  NP.handler (fun _ _ => "") none none c1Payload noFaults c1Db

/-- State after a second, identical delivery (a gateway retry). -/
def c1Twice : Nat × DB :=
  NP.handler (fun _ _ => "") none none c1Payload noFaults c1Once.2

/-- C1 (code_bug): the claim demands that any number n ≥ 1 of
gateway-confirmed deliveries credit the deposit's amount exactly once,
so the balance should be 10 + 25 = 35 after the second delivery as
well.  The code has no idempotency guard: the first delivery stores
status `finished` and credits 35, and the second delivery — whose
fetched status `finished` is neither `expired` nor gated on a
transition — credits again, leaving 60. -/
theorem c1_double_credit_on_redelivery :
    (c1Once.1 = 200 ∧ profileBalance 7 c1Once.2 = some (some 35)) ∧
      (c1Twice.1 = 200 ∧ profileBalance 7 c1Twice.2 = some (some 60)) := by
  norm_num [c1Once, c1Twice, c1Db, c1Payload, NP.handler, NP.afterAuth,
    setDepositStatus, setBalance, profileBalance, balanceOrZero, NP.amountToAdd,
    noFaults, strTruthy, qTruthy, List.filter, List.find?]
  decide

/-- Scenario for claim C2: one deposit whose stored `payment_status`
is already `expired`, owned by user 7 with balance 10. -/
def c2Db : DB :=
  { deposits := [{ id := 1, user_id := 7, amount := 25, payment_id := "p1",
                   payment_status := "expired", expires_at := none }],
    profiles := [{ user_id := 7, balance := some 10 }] }

/-- A NOWPayments `finished` webhook for the expired deposit. -/
def c2Payload : NP.Payload :=
  { payment_id := "p1", payment_status := "finished",
    pay_amount := none, actually_paid := none }

/-- First delivery against the expired deposit. -/
def c2Once : Nat × DB :=
  NP.handler (fun _ _ => "") none none c2Payload noFaults c2Db

/-- A retry of the same delivery against the resulting state. -/
def c2Second : Nat × DB :=
  NP.handler (fun _ _ => "") none none c2Payload noFaults c2Once.2

/-- C2 (code_bug): the claim demands that a deposit stored as
`expired` keeps status `expired` under any webhook.  The handler
writes the incoming status *before* performing the expired check, so
the single delivery overwrites the stored status with `finished`
(balance is unchanged by that delivery) — and because the terminal
status is lost, a retry of the same webhook then credits the balance. -/
theorem c2_expired_status_overwritten :
    (c2Once.1 = 200 ∧ depositStatus 1 c2Once.2 = some "finished" ∧
        profileBalance 7 c2Once.2 = some (some 10)) ∧
      profileBalance 7 c2Second.2 = some (some 35) := by
  norm_num [c2Once, c2Second, c2Db, c2Payload, NP.handler, NP.afterAuth,
    setDepositStatus, setBalance, profileBalance, depositStatus, balanceOrZero,
    NP.amountToAdd, noFaults, strTruthy, qTruthy, List.filter, List.find?]

/-- Scenario for claim C3: a `waiting` deposit of 25 for user 7 whose
balance is 10, targeted by an unsigned webhook while a secret IS
configured. -/
def c3Db : DB :=
  { deposits := [{ id := 1, user_id := 7, amount := 25, payment_id := "p1",
                   payment_status := "waiting", expires_at := none }],
    profiles := [{ user_id := 7, balance := some 10 }] }

/-- An unsigned NOWPayments delivery: `NOWPAYMENTS_IPN_SECRET` is set,
the `x-nowpayments-sig` header is absent, and the configured digest
function would never produce the empty signature. -/
def c3Np : Nat × DB :=
  NP.handler (fun _ _ => "E") (some "topsecret") none
    { payment_id := "p1", payment_status := "finished",
      pay_amount := none, actually_paid := none } noFaults c3Db

/-- An unsigned Cryptomus delivery: `CRYPTOMUS_API_KEY` is set, the
`sign` header is absent, and the payload carries no `sign` member. -/
def c3Cm : Nat × DB :=
  CM.handler (fun _ _ => "E") (some "topsecret") none
    { uuid := some "p1", order_id := none, status := "paid", sign := none }
    noFaults c3Db

/-- C3 (code_bug): the claim demands a 401 response and no mutation
for every request with a missing signature while a secret is
configured.  Both handlers only verify when a signature is present
(`if (signature) { ... }`), so an unsigned request falls through to
normal processing: both return 200 and credit the balance. -/
theorem c3_missing_signature_processed :
    (c3Np.1 = 200 ∧ profileBalance 7 c3Np.2 = some (some 35) ∧
        depositStatus 1 c3Np.2 = some "finished") ∧
      (c3Cm.1 = 200 ∧ profileBalance 7 c3Cm.2 = some (some 35) ∧
        depositStatus 1 c3Cm.2 = some "confirmed") := by
  norm_num [c3Np, c3Cm, c3Db, NP.handler, NP.afterAuth, CM.handler, CM.afterAuth,
    CM.mappedStatus, CM.statusMapping, setDepositStatus, setBalance, profileBalance,
    depositStatus, balanceOrZero, NP.amountToAdd, noFaults, strTruthy, qTruthy,
    List.filter, List.find?, List.lookup]
  decide

/-- Scenario for claim C4: a `waiting` deposit whose recorded amount
is 25, owned by user 7 with balance 0, and a NOWPayments webhook whose
payload claims `actually_paid = 999` and `pay_amount = 50`. -/
def c4Np : Nat × DB :=
  NP.handler (fun _ _ => "") none none
    { payment_id := "p1", payment_status := "finished",
      pay_amount := some 50, actually_paid := some 999 } noFaults
    { deposits := [{ id := 1, user_id := 7, amount := 25, payment_id := "p1",
                     payment_status := "waiting", expires_at := none }],
      profiles := [{ user_id := 7, balance := some 0 }] }

/-- C4 (code_bug): the claim demands that the credited amount equal
the deposit record's stored amount (25) and never come from the
payload.  The NOWPayments handler computes
`amountToAdd = actually_paid || pay_amount || deposit.amount`, so the
attacker-influenced payload field 999 is credited instead of 25. -/
theorem c4_payload_amount_credited :
    c4Np.1 = 200 ∧ profileBalance 7 c4Np.2 = some (some 999) := by
  norm_num [c4Np, NP.handler, NP.afterAuth, setDepositStatus, setBalance,
    profileBalance, balanceOrZero, NP.amountToAdd, noFaults, strTruthy, qTruthy,
    List.filter, List.find?]
  decide

/-- Lemma: `setDepositStatus` never touches the profiles table. -/
theorem setDepositStatus_profiles (i : Nat) (st : String) (db : DB) :
    (setDepositStatus i st db).profiles = db.profiles := rfl

/-- Scenario for claim C5: a single `waiting` deposit. -/
def c5Db : DB :=
  { deposits := [{ id := 1, user_id := 7, amount := 25, payment_id := "p1",
                   payment_status := "waiting", expires_at := none }],
    profiles := [{ user_id := 7, balance := some 10 }] }

/-- A NOWPayments delivery during which only the deposit status-update
write reports a database error. -/
def c5Np : Nat × DB :=
  NP.handler (fun _ _ => "") none none
    { payment_id := "p1", payment_status := "waiting",
      pay_amount := none, actually_paid := none }
    { fetchDeposit := false, updateDeposit := true,
      fetchProfile := false, updateBalance := false } c5Db

/-- C5 counterexample: the claim says a failed status-update write is
surfaced as a 500 response.  The handler only logs
`updateDepositError` and continues, answering 200 with the write
silently lost. -/
theorem c5_status_update_error_returns_200 : c5Np = (200, c5Db) := by
  norm_num [c5Np, c5Db, NP.handler, NP.afterAuth, noFaults, strTruthy, qTruthy,
    List.filter]
  decide

/-- C5 as amended: database errors during the deposit lookup, the
profile fetch, or the balance write are surfaced as 500 (for the
lookup, with no state change); but a failed deposit status-update
write is only logged, and processing continues as if it had succeeded
(answering 200 when nothing else fails).  Stated for the post-gate
bodies of both handlers, since a request must pass the signature gate
to reach any database call. -/
theorem c5_db_error_semantics (pn : NP.Payload) (pc : CM.Payload)
    (f : Faults) (db : DB) :
    (f.fetchDeposit = true →
        NP.afterAuth pn f db = (500, db) ∧ CM.afterAuth pc f db = (500, db))
    ∧ (∀ dep, f.fetchDeposit = false →
        db.deposits.filter (fun d => d.payment_id == pn.payment_id) = [dep] →
        ¬dep.payment_status = "expired" →
        (pn.payment_status = "finished" ∨ pn.payment_status = "confirmed") →
        f.fetchProfile = true → (NP.afterAuth pn f db).1 = 500)
    ∧ (∀ dep, f.fetchDeposit = false →
        db.deposits.filter (fun d => d.payment_id == pn.payment_id) = [dep] →
        ¬dep.payment_status = "expired" →
        (pn.payment_status = "finished" ∨ pn.payment_status = "confirmed") →
        f.fetchProfile = false → f.updateBalance = true →
        (NP.afterAuth pn f db).1 = 500)
    ∧ (∀ dep, f = ⟨false, true, false, false⟩ →
        db.deposits.filter (fun d => d.payment_id == pn.payment_id) = [dep] →
        ¬dep.payment_status = "expired" →
        ¬pn.payment_status = "finished" → ¬pn.payment_status = "confirmed" →
        NP.afterAuth pn f db = (200, db))
    ∧ (∀ dep, f.fetchDeposit = false →
        db.deposits.filter
          (fun d => (if strTruthy pc.uuid then pc.uuid else pc.order_id) ==
            some d.payment_id) = [dep] →
        ¬dep.payment_status = "expired" →
        (pc.status = "paid" ∨ pc.status = "paid_over") →
        f.fetchProfile = true → (CM.afterAuth pc f db).1 = 500)
    ∧ (∀ dep, f.fetchDeposit = false →
        db.deposits.filter
          (fun d => (if strTruthy pc.uuid then pc.uuid else pc.order_id) ==
            some d.payment_id) = [dep] →
        ¬dep.payment_status = "expired" →
        (pc.status = "paid" ∨ pc.status = "paid_over") →
        f.fetchProfile = false → f.updateBalance = true →
        (CM.afterAuth pc f db).1 = 500)
    ∧ (∀ dep, f = ⟨false, true, false, false⟩ →
        db.deposits.filter
          (fun d => (if strTruthy pc.uuid then pc.uuid else pc.order_id) ==
            some d.payment_id) = [dep] →
        ¬dep.payment_status = "expired" →
        ¬pc.status = "paid" → ¬pc.status = "paid_over" →
        CM.afterAuth pc f db = (200, db)) := by
  refine ⟨?_, ?_, ?_, ?_, ?_, ?_, ?_⟩
  · intro h
    constructor <;> simp [NP.afterAuth, CM.afterAuth, h]
  · intro dep hf hfil hexp hst hp
    rcases hst with h | h <;>
      simp [NP.afterAuth, hf, hfil, hexp, hp, h]
  · intro dep hf hfil hexp hst hp hb
    have hexpb : (dep.payment_status == "expired") = false := by simp [hexp]
    have hstb : (pn.payment_status == "finished" || pn.payment_status == "confirmed") = true := by
      rcases hst with h | h <;> simp [h]
    simp [NP.afterAuth, hf, hfil, hexpb, hstb, hp, hb]
    split <;> rfl
  · intro dep hfeq hfil hexp h1 h2
    subst hfeq
    simp [NP.afterAuth, hfil, hexp, h1, h2]
  · intro dep hf hfil hexp hst hp
    rcases hst with h | h <;>
      simp [CM.afterAuth, hf, hfil, hexp, hp, h]
  · intro dep hf hfil hexp hst hp hb
    have hexpb : (dep.payment_status == "expired") = false := by simp [hexp]
    have hstb : (pc.status == "paid" || pc.status == "paid_over") = true := by
      rcases hst with h | h <;> simp [h]
    simp [CM.afterAuth, hf, hfil, hexpb, hstb, hp, hb]
    split <;> rfl
  · intro dep hfeq hfil hexp h1 h2
    subst hfeq
    simp [CM.afterAuth, hfil, hexp, h1, h2]

/-- Witness for `c5_db_error_semantics`: every hypothesis of each
conjunct discharged at the concrete C5 scenario. -/
theorem c5_db_error_semantics_witness :
    (NP.afterAuth ⟨"p1", "finished", none, none⟩ ⟨true, false, false, false⟩ c5Db
        = (500, c5Db)
      ∧ CM.afterAuth ⟨some "p1", none, "paid", none⟩ ⟨true, false, false, false⟩ c5Db
        = (500, c5Db))
    ∧ (NP.afterAuth ⟨"p1", "finished", none, none⟩ ⟨false, false, true, false⟩ c5Db).1 = 500
    ∧ (NP.afterAuth ⟨"p1", "finished", none, none⟩ ⟨false, false, false, true⟩ c5Db).1 = 500
    ∧ NP.afterAuth ⟨"p1", "partially_paid", none, none⟩ ⟨false, true, false, false⟩ c5Db
        = (200, c5Db)
    ∧ (CM.afterAuth ⟨some "p1", none, "paid", none⟩ ⟨false, false, true, false⟩ c5Db).1 = 500
    ∧ (CM.afterAuth ⟨some "p1", none, "paid", none⟩ ⟨false, false, false, true⟩ c5Db).1 = 500
    ∧ CM.afterAuth ⟨some "p1", none, "check", none⟩ ⟨false, true, false, false⟩ c5Db
        = (200, c5Db) :=
  ⟨(c5_db_error_semantics ⟨"p1", "finished", none, none⟩ ⟨some "p1", none, "paid", none⟩
      ⟨true, false, false, false⟩ c5Db).1 rfl,
   (c5_db_error_semantics ⟨"p1", "finished", none, none⟩ ⟨some "p1", none, "paid", none⟩
      ⟨false, false, true, false⟩ c5Db).2.1 ⟨1, 7, 25, "p1", "waiting", none⟩
      rfl rfl (by decide) (Or.inl rfl) rfl,
   (c5_db_error_semantics ⟨"p1", "finished", none, none⟩ ⟨some "p1", none, "paid", none⟩
      ⟨false, false, false, true⟩ c5Db).2.2.1 ⟨1, 7, 25, "p1", "waiting", none⟩
      rfl rfl (by decide) (Or.inl rfl) rfl rfl,
   (c5_db_error_semantics ⟨"p1", "partially_paid", none, none⟩ ⟨some "p1", none, "paid", none⟩
      ⟨false, true, false, false⟩ c5Db).2.2.2.1 ⟨1, 7, 25, "p1", "waiting", none⟩
      rfl rfl (by decide) (by decide) (by decide),
   (c5_db_error_semantics ⟨"p1", "finished", none, none⟩ ⟨some "p1", none, "paid", none⟩
      ⟨false, false, true, false⟩ c5Db).2.2.2.2.1 ⟨1, 7, 25, "p1", "waiting", none⟩
      rfl rfl (by decide) (Or.inl rfl) rfl,
   (c5_db_error_semantics ⟨"p1", "finished", none, none⟩ ⟨some "p1", none, "paid", none⟩
      ⟨false, false, false, true⟩ c5Db).2.2.2.2.2.1 ⟨1, 7, 25, "p1", "waiting", none⟩
      rfl rfl (by decide) (Or.inl rfl) rfl rfl,
   (c5_db_error_semantics ⟨"p1", "finished", none, none⟩ ⟨some "p1", none, "check", none⟩
      ⟨false, true, false, false⟩ c5Db).2.2.2.2.2.2 ⟨1, 7, 25, "p1", "waiting", none⟩
      rfl rfl (by decide) (by decide) (by decide)⟩

/-- With pairwise-distinct deposit ids (the primary-key invariant of
the `deposits` table), membership of `d.id` among the ids collected
from a filtered selection is equivalent to `d` itself matching the
filter. -/
theorem mem_filterIds_iff (P : Deposit → Bool) (l : List Deposit)
    (h : (l.map Deposit.id).Nodup) (d : Deposit) (hd : d ∈ l) :
    d.id ∈ (l.filter P).map Deposit.id ↔ P d = true := by
  constructor
  · intro hmem
    rcases List.mem_map.mp hmem with ⟨e, he, heq⟩
    rcases List.mem_filter.mp he with ⟨hel, hPe⟩
    have hed : e = d := List.inj_on_of_nodup_map h hel hd heq
    rwa [hed] at hPe
  · intro hP
    exact List.mem_map.mpr ⟨d, List.mem_filter.mpr ⟨hd, hP⟩, rfl⟩

/-- A deposit just set to `expired` no longer matches the sweep
selection. -/
theorem expireMatch_expired (now : ℚ) (d : Deposit) :
    expireMatch now { d with payment_status := "expired" } = false := by
  simp [expireMatch]

/-- Scenario for claim C6: one deposit in status `pending` (the
`deposits` table's column default) whose `expires_at` (5) is before
`now` (10). -/
def c6Db : DB :=
  { deposits := [{ id := 1, user_id := 7, amount := 25, payment_id := "p1",
                   payment_status := "pending", expires_at := some 5 }],
    profiles := [] }

/-- C6 counterexample: the claim says the sweep transitions exactly
the `waiting` deposits with past expiry and modifies nothing else.
The code selects `payment_status in ('waiting','pending')`, so this
`pending` deposit — which the claim says must be left untouched — is
transitioned to `expired` and counted. -/
theorem c6_pending_deposit_swept :
    sweepExpired 10 noSweepFaults c6Db =
      (200, 1, { deposits := [{ id := 1, user_id := 7, amount := 25, payment_id := "p1",
                                payment_status := "expired", expires_at := some 5 }],
                 profiles := [] }) := by
  decide

/-- The per-deposit description of the sweep, following the spec's
words: transition exactly the matching deposits to `expired`, return
every other row (and the whole profiles table) unchanged. -/
def expireAll (now : ℚ) (db : DB) : DB :=
  { db with deposits := db.deposits.map fun d =>
      if expireMatch now d then { d with payment_status := "expired" } else d }

/-- C6 as amended: with pairwise-distinct deposit ids, a fault-free
sweep at `now` answers 200, reports as count the number of deposits in
status `waiting` OR `pending` whose `expires_at` is before `now`,
transitions exactly those to `expired` (every other deposit — in
particular every `confirmed` one and every not-yet-expired
`waiting`/`pending` one — is returned unchanged, and profiles are
untouched), and running the sweep again at the same `now` is a no-op
reporting count 0. -/
theorem c6_sweep_spec (now : ℚ) (db : DB)
    (h : (db.deposits.map Deposit.id).Nodup) :
    (sweepExpired now noSweepFaults db).1 = 200
    ∧ (sweepExpired now noSweepFaults db).2.1
        = (db.deposits.filter (expireMatch now)).length
    ∧ (sweepExpired now noSweepFaults db).2.2 = expireAll now db
    ∧ sweepExpired now noSweepFaults (expireAll now db)
        = (200, 0, expireAll now db) := by
  have hfilter2 : (expireAll now db).deposits.filter (expireMatch now) = [] := by
    refine List.filter_eq_nil_iff.mpr fun d' hd' => ?_
    rcases List.mem_map.mp hd' with ⟨d, hdm, hgd⟩
    by_cases hP : expireMatch now d = true
    · rw [← hgd, if_pos hP, expireMatch_expired]
      simp
    · rw [← hgd, if_neg hP]
      simp [hP]
  by_cases hE : db.deposits.filter (expireMatch now) = []
  · have hnone : ∀ d ∈ db.deposits, ¬expireMatch now d = true :=
      List.filter_eq_nil_iff.mp hE
    have hmap : expireAll now db = db := by
      have h1 : db.deposits.map (fun d =>
          if expireMatch now d then { d with payment_status := "expired" } else d)
          = db.deposits.map id :=
        List.map_congr_left fun d hd => by simp [hnone d hd]
      simp [expireAll, h1]
    have hrun : sweepExpired now noSweepFaults db = (200, 0, db) := by
      simp [sweepExpired, noSweepFaults, hE]
    rw [hrun, hE, hmap]
    exact ⟨rfl, rfl, rfl, by rw [hrun]⟩
  · have hE2 : (db.deposits.filter (expireMatch now)).isEmpty = false := by
      rcases hq : db.deposits.filter (expireMatch now) with _ | ⟨a, as⟩
      · exact absurd hq hE
      · rfl
    have hmapeq : db.deposits.map (fun d =>
        if d.id ∈ (db.deposits.filter (expireMatch now)).map Deposit.id
        then { d with payment_status := "expired" } else d)
        = db.deposits.map (fun d =>
            if expireMatch now d then { d with payment_status := "expired" } else d) :=
      List.map_congr_left fun d hd => by
        rw [if_congr (mem_filterIds_iff (expireMatch now) db.deposits h d hd) rfl rfl]
    have hrun : sweepExpired now noSweepFaults db =
        (200, (db.deposits.filter (expireMatch now)).length, expireAll now db) := by
      simp only [sweepExpired, noSweepFaults, hE2, Bool.false_eq_true, if_false,
        expireAll, hmapeq]
    have hrun2 : sweepExpired now noSweepFaults (expireAll now db)
        = (200, 0, expireAll now db) := by
      simp [sweepExpired, noSweepFaults, hfilter2]
    rw [hrun]
    exact ⟨rfl, rfl, rfl, hrun2⟩

/-- Second scenario for claim C6, exercising both a swept and an
untouched deposit. -/
def c6Wdb : DB :=
  { deposits := [{ id := 1, user_id := 7, amount := 25, payment_id := "p1",
                   payment_status := "waiting", expires_at := some 5 },
                 { id := 2, user_id := 8, amount := 30, payment_id := "p2",
                   payment_status := "confirmed", expires_at := some 5 }],
    profiles := [{ user_id := 7, balance := some 1 }] }

/-- Witness for `c6_sweep_spec` at the concrete scenario `c6Wdb`. -/
theorem c6_sweep_spec_witness :
    (c6Wdb.deposits.map Deposit.id).Nodup
    ∧ ((sweepExpired 10 noSweepFaults c6Wdb).1 = 200
      ∧ (sweepExpired 10 noSweepFaults c6Wdb).2.1
          = (c6Wdb.deposits.filter (expireMatch 10)).length
      ∧ (sweepExpired 10 noSweepFaults c6Wdb).2.2 = expireAll 10 c6Wdb
      ∧ sweepExpired 10 noSweepFaults (expireAll 10 c6Wdb)
          = (200, 0, expireAll 10 c6Wdb)) :=
  ⟨by decide, c6_sweep_spec 10 c6Wdb (by decide)⟩

/-- The handler's string-level `mappedStatus` agrees with the full
prototype-chain semantics `mappedStatusJs` on every status that does
not name an inherited `Object.prototype` member — in particular on
every status the embedded handler scenarios store. -/
theorem mappedStatus_agrees (s : String) (h : s ∉ CM.objectProtoMembers) :
    CM.mappedStatusJs s = CM.PropValue.str (CM.mappedStatus s) := by
  unfold CM.mappedStatusJs CM.bracketStatusMapping CM.mappedStatus
  rcases hq : List.lookup s CM.statusMapping with _ | v
  · simp [h]
  · rcases hv : v == "" with _ | _
    · simp [CM.propTruthy, hv]
    · simp [CM.propTruthy, hv, (beq_iff_eq ..).mp hv]

/-- C7 counterexample: the claim says every input string outside the
twelve-entry table is returned unchanged.  `"toString"` is outside the
table, but `statusMapping["toString"]` finds the truthy inherited
`Object.prototype.toString` on the prototype chain, so the expression
evaluates to that member, not to the string `"toString"`. -/
theorem c7_proto_key_not_passthrough :
    CM.mappedStatusJs "toString" = CM.PropValue.protoMember "toString"
    ∧ ¬CM.mappedStatusJs "toString" = CM.PropValue.str "toString" := by
  decide

/-- C7 as amended: `statusMapping[status] || status` never throws and
is total over strings; it maps the twelve table keys as the claim
lists; every input that is neither a table key nor the name of an
inherited `Object.prototype` member passes through unchanged; but an
input naming an inherited `Object.prototype` member evaluates to that
truthy inherited member instead of the input string. -/
theorem c7_mappedStatusJs_spec (s : String)
    (h1 : s ∉ ["paid", "paid_over", "confirm_check", "wrong_amount", "process",
      "check", "fail", "cancel", "system_fail", "refund_process", "refund_fail",
      "refund_paid"])
    (h2 : s ∉ CM.objectProtoMembers) :
    CM.mappedStatusJs "paid" = CM.PropValue.str "confirmed"
    ∧ CM.mappedStatusJs "paid_over" = CM.PropValue.str "confirmed"
    ∧ CM.mappedStatusJs "confirm_check" = CM.PropValue.str "waiting"
    ∧ CM.mappedStatusJs "wrong_amount" = CM.PropValue.str "waiting"
    ∧ CM.mappedStatusJs "process" = CM.PropValue.str "waiting"
    ∧ CM.mappedStatusJs "check" = CM.PropValue.str "waiting"
    ∧ CM.mappedStatusJs "fail" = CM.PropValue.str "expired"
    ∧ CM.mappedStatusJs "cancel" = CM.PropValue.str "expired"
    ∧ CM.mappedStatusJs "system_fail" = CM.PropValue.str "expired"
    ∧ CM.mappedStatusJs "refund_process" = CM.PropValue.str "expired"
    ∧ CM.mappedStatusJs "refund_fail" = CM.PropValue.str "expired"
    ∧ CM.mappedStatusJs "refund_paid" = CM.PropValue.str "expired"
    ∧ CM.mappedStatusJs s = CM.PropValue.str s
    ∧ ∀ t ∈ CM.objectProtoMembers,
        CM.mappedStatusJs t = CM.PropValue.protoMember t := by
  refine ⟨rfl, rfl, rfl, rfl, rfl, rfl, rfl, rfl, rfl, rfl, rfl, rfl, ?_,
    by decide⟩
  simp only [List.mem_cons, not_or, List.not_mem_nil, not_false_iff, and_true] at h1
  obtain ⟨g1, g2, g3, g4, g5, g6, g7, g8, g9, g10, g11, g12⟩ := h1
  have b : ∀ t : String, ¬s = t → (s == t) = false := fun t ht =>
    beq_eq_false_iff_ne.mpr ht
  simp [CM.mappedStatusJs, CM.bracketStatusMapping, CM.statusMapping, List.lookup,
    h2, b _ g1, b _ g2, b _ g3, b _ g4, b _ g5, b _ g6, b _ g7, b _ g8, b _ g9,
    b _ g10, b _ g11, b _ g12]

/-- Witness for `c7_mappedStatusJs_spec` at the unrecognized gateway
status "partially_paid" (neither a table key nor a prototype member). -/
theorem c7_mappedStatusJs_spec_witness :
    "partially_paid" ∉ ["paid", "paid_over", "confirm_check", "wrong_amount",
      "process", "check", "fail", "cancel", "system_fail", "refund_process",
      "refund_fail", "refund_paid"]
    ∧ "partially_paid" ∉ CM.objectProtoMembers
    ∧ (CM.mappedStatusJs "paid" = CM.PropValue.str "confirmed"
      ∧ CM.mappedStatusJs "paid_over" = CM.PropValue.str "confirmed"
      ∧ CM.mappedStatusJs "confirm_check" = CM.PropValue.str "waiting"
      ∧ CM.mappedStatusJs "wrong_amount" = CM.PropValue.str "waiting"
      ∧ CM.mappedStatusJs "process" = CM.PropValue.str "waiting"
      ∧ CM.mappedStatusJs "check" = CM.PropValue.str "waiting"
      ∧ CM.mappedStatusJs "fail" = CM.PropValue.str "expired"
      ∧ CM.mappedStatusJs "cancel" = CM.PropValue.str "expired"
      ∧ CM.mappedStatusJs "system_fail" = CM.PropValue.str "expired"
      ∧ CM.mappedStatusJs "refund_process" = CM.PropValue.str "expired"
      ∧ CM.mappedStatusJs "refund_fail" = CM.PropValue.str "expired"
      ∧ CM.mappedStatusJs "refund_paid" = CM.PropValue.str "expired"
      ∧ CM.mappedStatusJs "partially_paid" = CM.PropValue.str "partially_paid"
      ∧ ∀ t ∈ CM.objectProtoMembers,
          CM.mappedStatusJs t = CM.PropValue.protoMember t) :=
  ⟨by decide, by decide, c7_mappedStatusJs_spec "partially_paid" (by decide) (by decide)⟩

/-- Scenario for claim C8: one deposit, whose payment id differs from
the one the webhooks reference. -/
def c8Db : DB :=
  { deposits := [{ id := 1, user_id := 7, amount := 25, payment_id := "p1",
                   payment_status := "waiting", expires_at := none }],
    profiles := [{ user_id := 7, balance := some 10 }] }

/-- C8 (confirmed): a webhook whose payment id matches no deposit row
is answered 200 with the database untouched, by both handlers.  Stated
for the post-gate bodies (an authenticated request) with a fault-free
deposit lookup; the lookup precedes every write, so nothing is
mutated. -/
theorem c8_unknown_payment_noop (pn : NP.Payload) (pc : CM.Payload)
    (f : Faults) (db : DB) (hf : f.fetchDeposit = false)
    (hn : db.deposits.filter (fun d => d.payment_id == pn.payment_id) = [])
    (hc : db.deposits.filter
      (fun d => (if strTruthy pc.uuid then pc.uuid else pc.order_id) ==
        some d.payment_id) = []) :
    NP.afterAuth pn f db = (200, db) ∧ CM.afterAuth pc f db = (200, db) := by
  constructor <;> simp [NP.afterAuth, CM.afterAuth, hf, hn, hc]

/-- Witness for `c8_unknown_payment_noop`: a webhook for the unknown
payment id "ghost" against `c8Db`. -/
theorem c8_unknown_payment_noop_witness :
    noFaults.fetchDeposit = false
    ∧ c8Db.deposits.filter (fun d => d.payment_id == "ghost") = []
    ∧ c8Db.deposits.filter
        (fun d => (if strTruthy (some "ghost") then some "ghost" else none) ==
          some d.payment_id) = []
    ∧ NP.afterAuth ⟨"ghost", "finished", none, none⟩ noFaults c8Db = (200, c8Db)
    ∧ CM.afterAuth ⟨some "ghost", none, "paid", none⟩ noFaults c8Db = (200, c8Db) :=
  ⟨rfl, by decide, by decide,
   (c8_unknown_payment_noop ⟨"ghost", "finished", none, none⟩
      ⟨some "ghost", none, "paid", none⟩ noFaults c8Db rfl (by decide) (by decide)).1,
   (c8_unknown_payment_noop ⟨"ghost", "finished", none, none⟩
      ⟨some "ghost", none, "paid", none⟩ noFaults c8Db rfl (by decide) (by decide)).2⟩

/-- C10 (confirmed): crediting a confirmed deposit for a profile whose
stored balance is NULL treats the prior balance as 0 — the persisted
balance is `0 + amount` (never NULL, no failure), in both handlers;
the deposit's status is updated alongside.  Quantified over the
deposit amount and the identifiers (a nonempty payment id, since the
Cryptomus `uuid || order_id` treats the empty string as absent). -/
theorem c10_null_balance_as_zero (amt : ℚ) (uid did : Nat) (pid : String)
    (hpid : ¬pid = "") :
    NP.afterAuth ⟨pid, "finished", none, none⟩ noFaults
        { deposits := [{ id := did, user_id := uid, amount := amt, payment_id := pid,
                         payment_status := "waiting", expires_at := none }],
          profiles := [{ user_id := uid, balance := none }] }
      = (200, { deposits := [{ id := did, user_id := uid, amount := amt, payment_id := pid,
                               payment_status := "finished", expires_at := none }],
                profiles := [{ user_id := uid, balance := some (0 + amt) }] })
    ∧ CM.afterAuth ⟨some pid, none, "paid", none⟩ noFaults
        { deposits := [{ id := did, user_id := uid, amount := amt, payment_id := pid,
                         payment_status := "waiting", expires_at := none }],
          profiles := [{ user_id := uid, balance := none }] }
      = (200, { deposits := [{ id := did, user_id := uid, amount := amt, payment_id := pid,
                               payment_status := "confirmed", expires_at := none }],
                profiles := [{ user_id := uid, balance := some (0 + amt) }] }) := by
  constructor <;>
    simp [NP.afterAuth, CM.afterAuth, CM.mappedStatus, CM.statusMapping,
      setDepositStatus, setBalance, balanceOrZero, NP.amountToAdd, noFaults,
      strTruthy, qTruthy, List.filter, List.lookup, hpid]

/-- Witness for `c10_null_balance_as_zero` at amount 25, user 7,
deposit 1, payment id "p1". -/
theorem c10_null_balance_as_zero_witness :
    ¬"p1" = ""
    ∧ (NP.afterAuth ⟨"p1", "finished", none, none⟩ noFaults
        { deposits := [{ id := 1, user_id := 7, amount := 25, payment_id := "p1",
                         payment_status := "waiting", expires_at := none }],
          profiles := [{ user_id := 7, balance := none }] }
      = (200, { deposits := [{ id := 1, user_id := 7, amount := 25, payment_id := "p1",
                               payment_status := "finished", expires_at := none }],
                profiles := [{ user_id := 7, balance := some (0 + 25) }] })
    ∧ CM.afterAuth ⟨some "p1", none, "paid", none⟩ noFaults
        { deposits := [{ id := 1, user_id := 7, amount := 25, payment_id := "p1",
                         payment_status := "waiting", expires_at := none }],
          profiles := [{ user_id := 7, balance := none }] }
      = (200, { deposits := [{ id := 1, user_id := 7, amount := 25, payment_id := "p1",
                               payment_status := "confirmed", expires_at := none }],
                profiles := [{ user_id := 7, balance := some (0 + 25) }] })) :=
  ⟨by decide, c10_null_balance_as_zero 25 7 1 "p1" (by decide)⟩

/-- C9 counterexample: the claim says each gateway's `verifySignature`
never throws and returns `false` on malformed input.  The NOWPayments
variant begins with `Object.keys(payload)` outside any `try`/`catch`,
so a `null` payload (the body `"null"` parses to it) raises a
`TypeError` that escapes the function. -/
theorem c9_np_verify_throws_on_null :
    NP.verifySignature (fun _ _ => "") Json.null "sig" "secret"
      = Except.error JsErr.typeError := rfl

/-- C9 as amended: the NOWPayments `verifySignature` returns a boolean
for every non-null payload (only `Object.keys(null)` can throw, every
later step is total) but throws a `TypeError` on a null payload; the
Cryptomus `verifySignature` wraps its body in `try`/`catch` and
returns `false` whenever the body raises (e.g. `btoa` on non-latin-1
serialisations), so it is total and boolean-valued on all input. -/
theorem c9_verify_totality (hmacSha512Hex : String → String → String)
    (md5Hex enc : String → String) (payload : Json) (signature secret : String)
    (h : ¬payload = Json.null) :
    (∃ b, NP.verifySignature hmacSha512Hex payload signature secret = Except.ok b)
    ∧ ∀ e, CM.verifySignatureCore md5Hex enc payload signature secret
          = Except.error e →
        CM.verifySignature md5Hex enc payload signature secret = false := by
  constructor
  · cases payload with
    | null => exact absurd rfl h
    | bool b => exact ⟨_, rfl⟩
    | num q => exact ⟨_, rfl⟩
    | str s => exact ⟨_, rfl⟩
    | arr xs => exact ⟨_, rfl⟩
    | obj fs => exact ⟨_, rfl⟩
  · intro e he
    simp [CM.verifySignature, he]

/-- Witness for `c9_verify_totality` at a payload whose serialisation
contains a non-latin-1 character (so the Cryptomus body's `btoa`
raises and the `catch` arm is the one exercised). -/
theorem c9_verify_totality_witness :
    (¬Json.obj [("a", Json.str "€")] = Json.null)
    ∧ ((∃ b, NP.verifySignature (fun _ _ => "") (Json.obj [("a", Json.str "€")])
          "s" "k" = Except.ok b)
      ∧ ∀ e, CM.verifySignatureCore (fun _ => "") id (Json.obj [("a", Json.str "€")])
            "s" "k" = Except.error e →
          CM.verifySignature (fun _ => "") id (Json.obj [("a", Json.str "€")])
            "s" "k" = false) :=
  ⟨fun hh => Json.noConfusion hh,
   c9_verify_totality (fun _ _ => "") (fun _ => "") id (Json.obj [("a", Json.str "€")])
     "s" "k" (fun hh => Json.noConfusion hh)⟩
